import Mathlib

/-
Verification development for a Halo2 benchmarking program that arithmetizes the
Poseidon and Rescue-Prime sponge permutations over the BLS12-381 scalar field.

The Rust source (src/main.rs) is shallowly embedded below:
  * field elements become `ZMod P` with `P` the BLS12-381 scalar prime;
  * `Value<F>` (a possibly-unknown witness value) becomes `Option Fp`;
  * the witness generators `PoseidonChip::permute` / `RescueChip::permute` become
    explicit state machines that record, exactly in source order, the advice rows
    they assign, the fixed (round-constant) cells, the selector enables, the
    round-constant table reads, and any equality (copy) constraints they create;
  * the gate families built in `configure` become a small `Expr` AST mirroring
    halo2 `Expression` together with its degree function and its evaluation
    against a trace.
-/

set_option maxRecDepth 8000
set_option maxHeartbeats 4000000

/-- The BLS12-381 scalar field modulus (the shared prime of the source, given there
in the header comment as 0x73eda753299d7d483339d80809a1d80553bda402fffe5bfeffffffff00000001). -/
def P : Nat := 52435875175126190479447740508185965837690552500527637822603658699938581184513

/-- The shared prime field (`Fr` of BLS12-381 in the source). -/
abbrev Fp := ZMod P

/-- Poseidon round-constant table, `ROUND_CONSTANTS_PS` of the source: the same 195
decimal literals, parsed into field elements the way `from_str_vartime` does
(reduction mod `P`; all entries are below `P`). -/
def ROUND_CONSTANTS_PS : List Fp := [
  48991097081732275468845314168021420565497297775988823234113406403095118809216,
  38385660029618165285848698857635215143135976511856402182142757680787979296154,
  45664917788634056160947231182803089169570746657219074370482409200042991921246,
  46611823467219910333349433978991031443945697128435279755908258896090196676828,
  21239555800391983336673016232252577145979304597102502292785557024177155115319,
  5444549814002252718699361548642546874417220826495496552290417094191494299797,
  6120941817780228594851185625662354154126315032538247033968198498911791651970,
  23268934541565483112488314239282439244757346303484537549209002605218913236536,
  34778900561716047730386110499058136122597669775051061603711724688203374984731,
  11866412958831620887953860204795878894545618212709331023611019011793447488176,
  1292810553955081089139103033821163176614817808018762694232693357405135340213,
  29829440149074940820671559824872937980763748927491238614065138142835318453671,
  43007325278312980663982452106946226844964622384017700838855297379677047113384,
  6207852559847946300667836829798951848361581084433525098597857899536657157132,
  51263844854419207560514475863120683772532929850629546992690510884221364990253,
  47537207485065031976374469967696134772574834313568026823983918780308518394040,
  2221931791899303960239149702171682649773262449196140787838362753706579104592,
  39456839086017037141295863080128693714705835125922448198802062180577619415688,
  7307684192235537965831376311417883513796535701244096178785218530839409056523,
  40363790847223872255995860144037894400158879326818322790255787884037990480527,
  46370977865329511267956842930057959446221524060145738210680245530954549945015,
  31963375456062604704511762940421329756212766442452555529101241339674782334039,
  14931035994999669353073307088521670981122374648927581516990615825314462827897,
  9146050314741225622437907700594105481623623087635695897868792721147700541623,
  43028866523328004770172322384235815492694573248368601737155468843525625413279,
  10642771813466087799681476709295362996886361934733270333728358675267521442184,
  26204626472182247586446753357603232226235570940686295317661191583409532523578,
  51764778305842182544341507127328333397682018984536762517144144495830254727692,
  46323013798997081811959707047808149003166619133464450127989691277775183404349,
  5482714761779403197336605367697000529513289823583027739458069397684408687717,
  12801259943830582826718901632357112368256632783422449824889858551937326401170,
  24705221370028061177410670936487461711735994635988936070623351799675117594850,
  34818354068777339891091714877681898548352650337240481539567373888981659308099,
  35437981511765462742605234803376772682840664204821301764084738573774616215109,
  1433523918194521021731556457516832465819757187635645935518277720319249889445,
  1786444825311968572352002116054188762971225383128313206702203805257523693888,
  22232073076796622550494050910209988454596433174206874696362037700514082492276,
  24042430109235922611027968831657325520072553641473321784508698720854180658031,
  45406805567398680921065452923276055166961588153660261520529196040913487916279,
  35053262861048825411061280559553895536192334830763062477277235807515959383150,
  25108964803188800737437394246442073858261740146181095550988111856238954490309,
  35192650141137106058577418514209092904214762437910434967540336800650620041958,
  34220944794619662782589792809938215078980533657269200933482014763836254210880,
  39884393792242132075258602070541114557272278571033974158755307717930033808078,
  6528627567246138898338135471584665860403024864125846353758054588554049365178,
  26135348890537017135058266369936506677345001674530050056494732502158573534651,
  45940975099728729872716617510434185869788979733816569378448209603957649084497,
  15421094974171181812057105309783852016087843260648209913425190920580878315912,
  17821536801502538623431403481143359660601434134694528982404802873816360858943,
  8010729838943058740614807905113741378835761166137481371357965047712306801123,
  18699215163509883263304393673283276029620709331747651039747044003384506899917,
  37045787943638220002917633921716309877792707850558591835874081145770158399128,
  21575637935417645110089037900895429146838845113516284564671508366546944971174,
  1788789771738709712587591109966362080868778924904243569200231458308784197447,
  31893695366599021197812621371715665903315747385247436549810717167321695484766,
  51153400179598348220410722401172031495931771158209082356586940118519763307990,
  27065341612806387486757726552834268222391812301897865130062594135449450311205,
  21631377794423816098233500204394685009343254816615902551641496756763638503963,
  48126155452550090941025807356211843589751116110477652511672279566428926247148,
  41945332685105951593851845839403181725987901258063429769257339995392450728766,
  24296067579767080403247766323431204628341605710487447431323947636125286730412,
  15881178462681378844988252603563609691162651204658664856493588769950563205407,
  33027381395215663927148306470841421013404116814305740800948949823021554274098,
  39278310473084767209787340524936392884387815060990743323143945308386189000820,
  36914830105593239127583246606078015086694578878061417360363710472659792271157,
  2471481831227881021689006198592503194795082772689986463565415296171852015386,
  10133170919569185596470854926690039229735632740212998846069400800395437949818,
  13713875128407368240685505357662717227751490836079655538057610707920043576169,
  8342666644640774986634432327796294683569398370446186977217700283927741456745,
  46601389125814748868096111624907238097032545985765609175268428943258314495300,
  20955390743109511563797223108807741951396100480021156649651505770632943438749,
  30784566406743698397200754777301033281231860349200935908047757137616877875074,
  48343196439030272896030042717039190414055291776286919553358305329065060244544,
  5454630884154432785537568532823077194524789618913833351503828005963129645447,
  5929264687259766357446095238429932392315604113095822327000589827415320983004,
  22075444908821639097706881947036304396835729534515628434816919715415538390017,
  25941058816975140552446994550948593572939163972016393579803457030200129476973,
  39776348414428957147819346902864822521632016599308432283712625663034427240337,
  7416720880414633042939600412231360970614004283597614937824398530497243499212,
  27759512177446113435859126093069895419463054324674208616122176370583357562941,
  2693390255841122228782459820336527344026453452088174693463152401174043438469,
  50367239350666539482528955684311280608817276753868085587890812549436189586564,
  16174733649048109460569124327899128868049112853807486992529031028618670502840,
  25032516686620026063532769674876936116496163673410980298313095252836905833243,
  29144403930621998939944109351403497411548441156029659945515675350299265094466,
  2003270776024057925128728348175382837282431082428047352264694823915738934597,
  33363216671247018657387321397537436143187354110057266627888117938607035196831,
  20203086474546098412356910533884833744816739556295954278635367853784856438617,
  42960220771318412318176969631346524408076008158165832346168142557674200614679,
  6311431299350400649257553117850994107778654765725553469026713480041524237057,
  20356164198757608998824195662812920762417225019317083164408248459556033087792,
  50934696509775059306730966013034554090787668615778167832259926621090584698298,
  12540543785093585171832085015032615168496292565469198040103631290639480719638,
  7087832377964131545651220267742883342179930832350845193376391176592931716961,
  34984411233898940973869087861225504483500912780307024595154545196097892807889,
  35766364158306764887416108757297765472332147961010533956614913565935878448984,
  1765971701998656161486995693692800538505518481763639488010072221442068236951,
  52296260704967533238281867983484652098827616020272035805695017707768629021210,
  4935673489774322197628160742241883723281125866438378640636969542959380659457,
  49493374663267588751846054378343301708694531580092984346087290317742537210902,
  11234520985865325412206403291118519753189986845681526796638090446788348697652,
  24240566602759984788029880030276085623682320979885122363103446030346976862554,
  45173673056688650486124798353267048676515652881324846851443098010775612892322,
  273339079894952168974065527137723282564095652951909656957160946114792896627,
  4470325051640351957976738782642661997153601739638632363210829100051811744274,
  35146154431885107533179241729875580217482204780231937987130147605583867466092,
  5623976303155942456710618286519758761204923686926813378548021075733755166889,
  24016465951530015578209275233668961482322584131459513288081598210134015257997,
  17969920097176891022415687639709999939084490545645205326481661860931808113029,
  45152206508674411747856285000257938228137174933577379726580072509850619926251,
  38945634795250927360607537392732805897873100986379288027606175928019977509609,
  32851666289693613044889283133849490343674968726730793059165429991055922454070,
  31944620853700630151347751910587969550223781655480776781612692884058563662268,
  25256966274452535017610572446887439115046074651331211781708168773655007778872,
  9486939021502590608732001628331695421223550406038486802197261945175668785507,
  39459143086960362426927505137137876218390935544236059938922871880000296175208,
  31894450224048346260322339655447950546670422421242715439734122749915296243605,
  26892539091318428420931225040417651442139701587930804697886023619431558542747,
  2542844944718735302766446637202404427628413878092734865912744553984157161261,
  31883859221346313107414474846252752604992097590133961842848913019073014153010,
  51303361359653464050006771537341226976539604964205923399469614564706008834052,
  51171387502764330562774849667033034283056080450385872897204773223645085369254,
  7237091576916241695047293084522141336268656276386088021954481852199921973216,
  25026554458962841467968682601680143746537618788336396538569095145280445662154,
  16003513886762983460717836271035484656754723355114772159990269505739759600774,
  20742179979178809796122395691368538694837598010689782796398715701486525085958,
  44785832974715571208383539748048195425158621451201620091409304675643540484444,
  40997683756979855969631370242290487603852436449608298499325558394715696204831,
  24039577999618876159836452559464600377553684696598310542830185648570694947325,
  214991500380221402745874275507138825943309188151683861156767017258335759518,
  37648944229324812379904445632193391903358473357814505256571234492472677352375,
  33262001091080721927187326829375441597312853742311915461357184164050334176171,
  12889759088432190033171086881844675377815686311282488955569491035800531227592,
  38889970121432469903433846063190552781925277874128916432889442865031400486457,
  9686759546395317438502700818478291413888291261781927399197594299119600593872,
  25228839869827315437841994432860023863461613471517457235105091951188556007171,
  29251067411858749210993269168637503659802522399342640488863629751155422442084,
  40912660681512278236165911366927220401330409827994264103091984300131586078341,
  12796501909444494709088656380507035418412240267936921974592450125220369752821,
  41489997591227135571666436387925119767986380278590920811343183082128452793080,
  21497862265009693334292006570547451455021214638930393134366176167326805799325,
  42759488993366187559528022270353477068325476435317366129099617149236057994173,
  51812786435352958751631482409057671996557140765865434087196139886155873550638,
  49668984917578993057336571483567900930503120626539459296975328351727319861276,
  16647828498038646540925328826301561929374469486623027976723819473821480409681,
  48148303340548214354795067112758174231010308760482898449349672592745234924387,
  40514099213939369482769058963482609316155051560990264349668700968914554718236,
  36567947302783543506732234132138195442155777559454242003814702099955749246290,
  22396816925035795192842094319757131771178499933587237012855640944068186589937,
  47761479716265566311036142819261705369735044145214592608213591050556455450430,
  13277094590686127307617107451297268367321013828763858520220510028318248040673,
  6273610774394348396010704017556554992266752629801490457323912355626787108751,
  47394279615623798760617602748864924711531390489909756029248999925570450315302,
  27952252793623580780344613559829677253211432925530630621608481053048520434744,
  1683222943011658234228486862639342402730538635204883039431226239924268835592,
  6849709550515639669397513895396396226183305237153796793058311861850242817732,
  51524350017816629912679960748295545024593637560633508281874724597080573807830,
  26590614177194547630006347843068513496427790322854759433492355517360208924714,
  31548830001396651725711310298465958490865636855427227043617585502978053092924,
  14291568473806392803367440164088272381690062239638560607879858528716058147676,
  21146452903160991922099734199583866923318964586815062550024895407430164358523,
  22961005724583382013438450487662047962072123198815308647967555251332825175693,
  4752908842318626074338926279870993084957055641402767877988223199262408017438,
  41544523600430331260332604149473035199994864893327747257504064038791086157408,
  17323878296591859990733132832893641096022161936583121997952997880406237212813,
  18014582744613086697405046476881081314871698927785490238333612330034405321202,
  45325447140824171211209633262297712878556500592023247082629492785769121758434,
  6192753434333002929210820794040779560623421075700800400752599138519650269040,
  12937001546279985738495952624875312380127801527837660882855310431015537184413,
  45991618799696924909840068913271150748052998998510820293768267349781597832497,
  37441188106719457933929221474454571110916912448355945524409576665808556247872,
  49875923679586708113406579244909793162425404239213510953269412337363307325571,
  15051465698071304017966667797323113094420513709580063806706433232853573089040,
  10338905189138871748742400929101717755982978259187828256039071250817040249017,
  40261933448177008341539991920645739011692467645144896682394869561245899318641,
  38346498339252184147870281431364733631809877281747451440216067081256241485418,
  6209216396715641040468803949857167055175110420218294975303260728579180870134,
  25923422290512595808420551575642237631007497169886590851128840338102194873726,
  11953618934086915505672657493115697182858104796786340137294500949047339928290,
  48506710952023206646326838201389789459004051035511888474426942257560405427104,
  49584811575438811511092715559885015474424100729555178730940640525393341823572,
  25222528947373923151054372702664425173210441980263130389325557963853429239320,
  36212452941316997504575803214309342413443151488267891949906815090453746563323,
  19548334171603533109137618032918088438321356008712800140019849908969476369140,
  13369714008256347363334888026585995433724817786797528430136744458743428376798,
  23153174875441426069922538845839074574095797738892298576581895020444392853731,
  19950632315767750645780485212179021291844439659606854957365124208057044477001,
  4990085320684307481424051057758258811192003289472239932032551966513564492664,
  29810043862384409261569733347989054089853302964778668946432779952952625186706,
  10937492441648375945337911315608624372433158520395209903090712138844575570844,
  24981706249730491732129119057314109520549309496394969130105355950186024721860,
  10498082524469215029826843019306692952360905490979497919767209022386939911216,
  15682375221169428458922809183562392617423770660027773228464622792081026981791,
  41914385147673242564111169184735297479310144571630342213035237856939024640011,
  39667818743665708661866396692813914317148400284941420155363896112617842800421]

/-- Rescue-Prime round-constant table, `ROUND_CONSTANTS_RS` of the source: 8 rows of
3 constants each, kept as triples. -/
def ROUND_CONSTANTS_RS : List (Fp × Fp × Fp) := [
  (41550313466542986686381187475386224890619213663365144133966235154580769474314, 46235636976106534322257334778843335414724041131494488188341064387240106153243, 43314474564749977258448857367299700960955407362432105710780024592683745356396),
  (6610248367712747417489710323792672924291015441980260828503764505802544302133, 48902835969048727949157312845529356609975996102724786706493615060533278826882, 48020430798213331714265136872960067665339968785807617895912965210318833506033),
  (46852092121783048129054015209292285454336628007814272371588179933784556551027, 18285529991400289460558442082097384209909111358722088777170630517004445042401, 39715240121717033403976206014745165566831987912684275661267961794798544871325),
  (39129494641659579693129270149028838267319001600817760345550310657253464282481, 16498478026547012198311182730134271651465725575734990928064879994773584955147, 15538063473797736748725276996847281947218186074842698727649618962576399148406),
  (12101073411609416127490814861966272020523587207284114445457770741397044122169, 41191457238696909629534734120094776042526534898929749767454246268859687595206, 14461612708761797000547489494258040283490469843669982750248191854462915994269),
  (21457542915987289663022414331227578968074137299214232740648201393058262727787, 29910968875453454114258285197546306058264337380169261403677155868116380953177, 1898093979887951345662468894551151764048081657277492505601547831464044030732),
  (48489871713406609021659256694551631688695628741735467423625834725439773239420, 15812043658450185541651447416198363552300888092238882774860191251166424574103, 25192733271269000031278313438764703304293505356764019300933833584278095057211),
  (51449973959999043781013692277642864865788635636442612709446611274677398875715, 7335113001153546988973758758642349543575276014251270978519899059245031076651, 38071662158091447967518913580232801247205163003871086365540004964717937594515)]

/-- The shared 3x3 MDS matrix from `get_common_params`, row i / column j. -/
def mds : Nat → Nat → Fp
  | 0, 0 => 27854988750630959170337239780597144027224715023811960992659706878268355039181
  | 0, 1 => 25146695260744508059100624982461970690166157722474767565243652164077487269055
  | 0, 2 => 20045359041216123667749848881863965260443684681509271093016182932435520519586
  | 1, 0 => 14489116502293865465195620705098702569149962166993518933952339786917836503875
  | 1, 1 => 13125423966940654332711887575940116829944663267413330181877013057693186361539
  | 1, 2 => 37781904496949962127477230973432217892379931214289750852498713884075794707207
  | 2, 0 => 13626913895298938265545264952401615832299228269982032679076937571883280705196
  | 2, 1 => 1961062001717124873779753860369853658060849384038305407377314938662537282272
  | 2, 2 => 39178371364179396693874733819376491076633720395229958100530484864695867731796
  | _, _ => 0

/-- Access into the flat Poseidon round-constant table (`ROUND_CONSTANTS_PS[i]` in the
source; out-of-range reads, which the development shows never happen under the
hardcoded parameters, default to 0). -/
def rcPS (i : Nat) : Fp := ROUND_CONSTANTS_PS.getD i 0

/-- Access one row of the Rescue-Prime round-constant table (`ROUND_CONSTANTS_RS[idx]`). -/
def rcRS (idx : Nat) : Fp × Fp × Fp := ROUND_CONSTANTS_RS.getD idx (0, 0, 0)

/-- Poseidon-specific parameters (struct `Poseidon` of the source, minus the
`common_params` whose `mds`/state-size data are the global definitions above).
The source field `partial_rounds` is spelled `partRounds` here. -/
structure Poseidon where
  partRounds : Nat
  fullRounds : Nat
  n : Nat
  alpha : Fp
deriving DecidableEq

/-- Rescue-Prime-specific parameters (struct `RescuePrime` of the source; `alpha_inv`
is a `BigUint` there, a `Nat` here). -/
structure RescuePrime where
  rounds : Nat
  alpha : Fp
  alphaInv : Nat
deriving DecidableEq

/-- The `pow5` closure of both `permute` implementations: a * a = a^2, squared = a^4,
times a = a^5. -/
def pow5 (a : Fp) : Fp :=
  let temp := a * a
  let temp1 := temp * temp
  a * temp1

/-- The selector families allocated by the two `configure` implementations. -/
inductive Sel where
  | addRcs
  | mdsMul
  | sbFull
  | sbPart
  | sbRs
  | sbInvRs
deriving DecidableEq

/-- One trace row: the values assigned to the three advice (state) columns at one
offset. A value is `none` when the `Value<F>` being assigned is unknown. -/
structure OptSt where
  s0 : Option Fp
  s1 : Option Fp
  s2 : Option Fp
deriving DecidableEq

/-- `Value::zip`/`map` over three values: known exactly when all three are known,
mirroring the `zip().zip().map()` chains used for the MDS rows. -/
def omap3 (f : Fp → Fp → Fp → Fp) (a b c : Option Fp) : Option Fp :=
  a.bind fun x => b.bind fun y => c.map fun z => f x y z

/-- The MDS-multiplication output row as computed by the witness generators
(state value times matrix coefficient, row by row). -/
def mdsRowO (s : OptSt) : OptSt where
  s0 := omap3 (fun a b c => a * mds 0 0 + b * mds 0 1 + c * mds 0 2) s.s0 s.s1 s.s2
  s1 := omap3 (fun a b c => a * mds 1 0 + b * mds 1 1 + c * mds 1 2) s.s0 s.s1 s.s2
  s2 := omap3 (fun a b c => a * mds 2 0 + b * mds 2 1 + c * mds 2 2) s.s0 s.s1 s.s2

/-- The running state of `PoseidonChip::permute`'s region closure: the current state
cells, the constant-table cursor `constant_idx`, the row cursor `offset`, plus a
faithful record of everything the closure hands to the backend: advice rows
(`rows`, index = offset; `rows[0]` is the initial-state row), fixed-column
assignments (`fixedRows` : offset and the three constants placed there), selector
enables, the constant-table indices read (`rcAccess`), and the equality (copy)
constraints requested inside the region (`copies`, as (column, offset) cell pairs).
The source's region closure never calls `constrain_equal`/`copy_advice`, so no
element is ever appended to `copies`. -/
structure PsState where
  state : OptSt
  constantIdx : Nat
  offset : Nat
  rows : List OptSt
  fixedRows : List (Nat × Fp × Fp × Fp)
  enables : List (Sel × Nat)
  rcAccess : List Nat
  copies : List ((Nat × Nat) × (Nat × Nat))
deriving DecidableEq

/-- Initial region state of `PoseidonChip::permute`: the three inputs are assigned as
row 0, `constant_idx = 0`, `offset = 0`. -/
def psInit (a0 a1 a2 : Option Fp) : PsState where
  state := ⟨a0, a1, a2⟩
  constantIdx := 0
  offset := 0
  rows := [⟨a0, a1, a2⟩]
  fixedRows := []
  enables := []
  rcAccess := []
  copies := []

/-- The `poseidon_round` closure: assign the three round constants of the current
cursor to the fixed columns at the current offset, enable the ARC selector there,
advance cursor and offset, assign the ARC result row; enable the full or the
lane-0-only S-box selector according to `fullRound` and assign the S-box result
row (in the lane-0-only branch, lanes 1 and 2 are re-assigned unchanged and no
copy constraint is created); enable the MDS selector and assign the MDS result
row. -/
def poseidonRound (fullRound : Bool) (st : PsState) : PsState :=
  let rc0 := rcPS st.constantIdx
  let rc1 := rcPS (st.constantIdx + 1)
  let rc2 := rcPS (st.constantIdx + 2)
  let st1 : PsState :=
    { st with
      fixedRows := st.fixedRows ++ [(st.offset, rc0, rc1, rc2)]
      enables := st.enables ++ [(Sel.addRcs, st.offset)]
      rcAccess := st.rcAccess ++ [st.constantIdx, st.constantIdx + 1, st.constantIdx + 2]
      constantIdx := st.constantIdx + 3
      offset := st.offset + 1 }
  let afterArc : OptSt :=
    ⟨st.state.s0.map (fun v => v + rc0),
     st.state.s1.map (fun v => v + rc1),
     st.state.s2.map (fun v => v + rc2)⟩
  let st2 : PsState := { st1 with state := afterArc, rows := st1.rows ++ [afterArc] }
  let st3 : PsState :=
    if fullRound then
      let stE : PsState :=
        { st2 with enables := st2.enables ++ [(Sel.sbFull, st2.offset)], offset := st2.offset + 1 }
      let afterSb : OptSt := ⟨afterArc.s0.map pow5, afterArc.s1.map pow5, afterArc.s2.map pow5⟩
      { stE with state := afterSb, rows := stE.rows ++ [afterSb] }
    else
      let stE : PsState :=
        { st2 with enables := st2.enables ++ [(Sel.sbPart, st2.offset)], offset := st2.offset + 1 }
      let afterSb : OptSt := ⟨afterArc.s0.map pow5, afterArc.s1, afterArc.s2⟩
      { stE with state := afterSb, rows := stE.rows ++ [afterSb] }
  let st4 : PsState :=
    { st3 with enables := st3.enables ++ [(Sel.mdsMul, st3.offset)], offset := st3.offset + 1 }
  let afterMl : OptSt := mdsRowO st4.state
  { st4 with state := afterMl, rows := st4.rows ++ [afterMl] }

/-- The round sequence driven by the three `for` loops of `PoseidonChip::permute`:
`full_rounds/2` full rounds, `partial_rounds` lane-0-only rounds, `full_rounds/2`
full rounds. -/
def psSchedule (fullRounds partRounds : Nat) : List Bool :=
  List.replicate (fullRounds / 2) true ++ List.replicate partRounds false ++
    List.replicate (fullRounds / 2) true

/-- `PoseidonChip::permute`: run the round schedule of the given specification on the
initial state. -/
def PoseidonChip.permute (params : Poseidon) (a0 a1 a2 : Option Fp) : PsState :=
  (psSchedule params.fullRounds params.partRounds).foldl
    (fun st b => poseidonRound b st) (psInit a0 a1 a2)

/-- The Poseidon specification hardcoded in `PoseidonCircuit::configure`:
`partial_rounds = 57`, `full_rounds = 8`, `n = 195`, `alpha = 5`. -/
def poseidonParams : Poseidon := ⟨57, 8, 195, 5⟩

/-- `PoseidonChip::permute` as invoked by `PoseidonCircuit::synthesize` (with the
hardcoded specification). -/
def poseidonPermute (a0 a1 a2 : Option Fp) : PsState :=
  PoseidonChip.permute poseidonParams a0 a1 a2
/-- The running state of `RescueChip::permute`'s region closure, with the same
recording fields as `PsState` (Rescue-Prime keeps no constant cursor; `rcAccess`
records the constant-table *row* indices passed to `inject_rcs`). The source's
region closure never calls `constrain_equal`/`copy_advice` here either. -/
structure RsState where
  state : OptSt
  offset : Nat
  rows : List OptSt
  fixedRows : List (Nat × Fp × Fp × Fp)
  enables : List (Sel × Nat)
  rcAccess : List Nat
  copies : List ((Nat × Nat) × (Nat × Nat))
deriving DecidableEq

/-- Initial region state of `RescueChip::permute`. -/
def rsInit (a0 a1 a2 : Option Fp) : RsState where
  state := ⟨a0, a1, a2⟩
  offset := 0
  rows := [⟨a0, a1, a2⟩]
  fixedRows := []
  enables := []
  rcAccess := []
  copies := []

/-- The `mds_mul` closure of `RescueChip::permute`: enable the MDS selector at the
current offset, advance, assign the product row. -/
def rescueMdsMul (st : RsState) : RsState :=
  let stE : RsState :=
    { st with enables := st.enables ++ [(Sel.mdsMul, st.offset)], offset := st.offset + 1 }
  let afterMl : OptSt := mdsRowO st.state
  { stE with state := afterMl, rows := stE.rows ++ [afterMl] }

/-- The `inject_rcs` closure: assign constant-table row `idx` to the fixed columns at
the current offset, enable the ARC selector there, advance, assign the sum row. -/
def rescueInjectRcs (idx : Nat) (st : RsState) : RsState :=
  let rc := rcRS idx
  let stE : RsState :=
    { st with
      fixedRows := st.fixedRows ++ [(st.offset, rc.1, rc.2.1, rc.2.2)]
      enables := st.enables ++ [(Sel.addRcs, st.offset)]
      rcAccess := st.rcAccess ++ [idx]
      offset := st.offset + 1 }
  let afterArc : OptSt :=
    ⟨st.state.s0.map (fun v => v + rc.1),
     st.state.s1.map (fun v => v + rc.2.1),
     st.state.s2.map (fun v => v + rc.2.2)⟩
  { stE with state := afterArc, rows := stE.rows ++ [afterArc] }

/-- The `rescue_round` closure: forward S-box (selector + row), `mds_mul`,
`inject_rcs` with table row `2*round`, inverse S-box (selector + row, computed with
`pow_vartime(alpha_inv)`), `mds_mul`, `inject_rcs` with table row `2*round + 1`. -/
def rescueRound (alphaInv : Nat) (round : Nat) (st : RsState) : RsState :=
  let stE : RsState :=
    { st with enables := st.enables ++ [(Sel.sbRs, st.offset)], offset := st.offset + 1 }
  let afterSb : OptSt := ⟨st.state.s0.map pow5, st.state.s1.map pow5, st.state.s2.map pow5⟩
  let st1 : RsState := { stE with state := afterSb, rows := stE.rows ++ [afterSb] }
  let st2 : RsState := rescueMdsMul st1
  let st3 : RsState := rescueInjectRcs (2 * round) st2
  let st4 : RsState :=
    { st3 with enables := st3.enables ++ [(Sel.sbInvRs, st3.offset)], offset := st3.offset + 1 }
  let afterInv : OptSt :=
    ⟨st3.state.s0.map (fun v => v ^ alphaInv),
     st3.state.s1.map (fun v => v ^ alphaInv),
     st3.state.s2.map (fun v => v ^ alphaInv)⟩
  let st5 : RsState := { st4 with state := afterInv, rows := st4.rows ++ [afterInv] }
  let st6 : RsState := rescueMdsMul st5
  rescueInjectRcs (2 * round + 1) st6

/-- `RescueChip::permute`: run `rounds` rescue rounds on the initial state. -/
def RescueChip.permute (params : RescuePrime) (a0 a1 a2 : Option Fp) : RsState :=
  (List.range params.rounds).foldl
    (fun st r => rescueRound params.alphaInv r st) (rsInit a0 a1 a2)

/-- The Rescue-Prime specification hardcoded in `RescueCircuit::configure`:
`rounds = 4`, `alpha = 5`, `alpha_inv` the modular inverse of 5 modulo `P - 1`. -/
def rescueParams : RescuePrime :=
  ⟨4, 5, 20974350070050476191779096203274386335076221000211055129041463479975432473805⟩

/-- `RescueChip::permute` as invoked by `RescueCircuit::synthesize`. -/
def rescuePermute (a0 a1 a2 : Option Fp) : RsState :=
  RescueChip.permute rescueParams a0 a1 a2
/-- A concrete (fully known) state triple, for the out-of-circuit evaluation of the
permutations. -/
structure St3 where
  c0 : Fp
  c1 : Fp
  c2 : Fp
deriving DecidableEq

/-- View a concrete triple as a triple of known witness values. -/
def liftSt (s : St3) : OptSt := ⟨some s.c0, some s.c1, some s.c2⟩

/-- Spec-side (out-of-circuit) ARC step: add the three table constants at cursor `i`. -/
def arcAddF (i : Nat) (s : St3) : St3 := ⟨s.c0 + rcPS i, s.c1 + rcPS (i + 1), s.c2 + rcPS (i + 2)⟩

/-- Spec-side full S-box: fifth power on every lane. -/
def sboxFullF (s : St3) : St3 := ⟨pow5 s.c0, pow5 s.c1, pow5 s.c2⟩

/-- Spec-side Poseidon lane-0-only S-box: fifth power on lane 0, lanes 1 and 2
unchanged. -/
def sboxL0F (s : St3) : St3 := ⟨pow5 s.c0, s.c1, s.c2⟩

/-- Spec-side MDS multiply. -/
def mdsApplyF (s : St3) : St3 where
  c0 := s.c0 * mds 0 0 + s.c1 * mds 0 1 + s.c2 * mds 0 2
  c1 := s.c0 * mds 1 0 + s.c1 * mds 1 1 + s.c2 * mds 1 2
  c2 := s.c0 * mds 2 0 + s.c1 * mds 2 1 + s.c2 * mds 2 2

/-- Spec-side single Poseidon round on (cursor, state): ARC with three constants in
table order, then the full or lane-0-only S-box, then MDS. -/
def psRoundF (b : Bool) (p : Nat × St3) : Nat × St3 :=
  (p.1 + 3, mdsApplyF (if b then sboxFullF (arcAddF p.1 p.2) else sboxL0F (arcAddF p.1 p.2)))

/-- Direct evaluation of the Poseidon permutation (the ARC/S-box/MDS round schedule
of the spec), outside any circuit. -/
def poseidonF (s : St3) : St3 :=
  ((psSchedule poseidonParams.fullRounds poseidonParams.partRounds).foldl
    (fun p b => psRoundF b p) (0, s)).2

/-- Spec-side constant injection for Rescue-Prime: add constant-table row `idx`. -/
def rsInjectF (idx : Nat) (s : St3) : St3 :=
  ⟨s.c0 + (rcRS idx).1, s.c1 + (rcRS idx).2.1, s.c2 + (rcRS idx).2.2⟩

/-- Spec-side Rescue-Prime inverse S-box: `alpha_inv`-th power on every lane. -/
def rsInvSboxF (alphaInv : Nat) (s : St3) : St3 :=
  ⟨s.c0 ^ alphaInv, s.c1 ^ alphaInv, s.c2 ^ alphaInv⟩

/-- Spec-side single Rescue-Prime round: forward S-box, MDS, inject table row `2r`,
inverse S-box, MDS, inject table row `2r + 1`. -/
def rsRoundF (alphaInv : Nat) (r : Nat) (s : St3) : St3 :=
  rsInjectF (2 * r + 1) (mdsApplyF (rsInvSboxF alphaInv
    (rsInjectF (2 * r) (mdsApplyF (sboxFullF s)))))

/-- Direct evaluation of the Rescue-Prime permutation outside any circuit. -/
def rescueF (s : St3) : St3 :=
  (List.range rescueParams.rounds).foldl
    (fun t r => rsRoundF rescueParams.alphaInv r t) s

/-- The public outputs bound by `PoseidonCircuit::synthesize`: the three final state
cells, exposed on instance rows 0, 1, 2. -/
def PoseidonCircuit.publicOutputs (a0 a1 a2 : Option Fp) : List (Option Fp) :=
  let r := poseidonPermute a0 a1 a2
  [r.state.s0, r.state.s1, r.state.s2]

/-- The expected Poseidon instance column contents asserted in `main`
(`expected_ps`). -/
def mainExpectedPs : List Fp :=
  [18456658763349757341014058622209659766100673761449600566550821987295786346378,
   37068251774887509885063625701815026138353041152735229476479055620962268601796,
   26763157702141528937904191329664859174584798817251788852101947537759678822298]
/-- Constraint-polynomial AST, mirroring the halo2 `Expression` constructors the
source uses: constants, selector queries, fixed-column queries (current row), and
advice queries (column, rotation 0 = current or 1 = next), with negation, sum and
product. Subtraction `a - b` in the source builds `add a (neg b)`, as in halo2. -/
inductive Expr where
  | const : Fp → Expr
  | sel : Sel → Expr
  | fixedQ : Nat → Expr
  | adviceQ : Nat → Nat → Expr
  | neg : Expr → Expr
  | add : Expr → Expr → Expr
  | mul : Expr → Expr → Expr
deriving DecidableEq

/-- halo2's `Expression::degree`: queries and selectors have degree 1, constants 0,
sums take the max, products the sum. -/
def Expr.degree : Expr → Nat
  | .const _ => 0
  | .sel _ => 1
  | .fixedQ _ => 1
  | .adviceQ _ _ => 1
  | .neg e => e.degree
  | .add a b => max a.degree b.degree
  | .mul a b => a.degree + b.degree

/-- The `a*a*a*a*a` fifth-power chain (left-associated, with `clone`s) used by every
S-box gate of the source. -/
def pow5Expr (e : Expr) : Expr :=
  Expr.mul (Expr.mul (Expr.mul (Expr.mul e e) e) e) e

/-- `create_arc_gate`: for each lane, `s_add_rcs * (a_next - (a + rc))`. -/
def create_arc_gate : List Expr :=
  [Expr.mul (Expr.sel Sel.addRcs)
     (Expr.add (Expr.adviceQ 0 1) (Expr.neg (Expr.add (Expr.adviceQ 0 0) (Expr.fixedQ 0)))),
   Expr.mul (Expr.sel Sel.addRcs)
     (Expr.add (Expr.adviceQ 1 1) (Expr.neg (Expr.add (Expr.adviceQ 1 0) (Expr.fixedQ 1)))),
   Expr.mul (Expr.sel Sel.addRcs)
     (Expr.add (Expr.adviceQ 2 1) (Expr.neg (Expr.add (Expr.adviceQ 2 0) (Expr.fixedQ 2))))]

/-- One MDS row polynomial: `a_next - (a0*m(i,0) + a1*m(i,1) + a2*m(i,2))`, the
matrix entries embedded as constants. -/
def mdsRowExpr (i : Nat) : Expr :=
  Expr.add (Expr.adviceQ i 1)
    (Expr.neg (Expr.add
      (Expr.add (Expr.mul (Expr.adviceQ 0 0) (Expr.const (mds i 0)))
        (Expr.mul (Expr.adviceQ 1 0) (Expr.const (mds i 1))))
      (Expr.mul (Expr.adviceQ 2 0) (Expr.const (mds i 2)))))

/-- `create_mds_mul_gate`: `s_mds_mul` times each MDS row polynomial. -/
def create_mds_mul_gate : List Expr :=
  [Expr.mul (Expr.sel Sel.mdsMul) (mdsRowExpr 0),
   Expr.mul (Expr.sel Sel.mdsMul) (mdsRowExpr 1),
   Expr.mul (Expr.sel Sel.mdsMul) (mdsRowExpr 2)]

/-- `create_partial_sbox_gate_ps` (lane 0 only): the gate queries a single advice
column; `s_sub_bytes_partial * (a0_next - a0^5)`. -/
def create_part_sbox_gate_ps : List Expr :=
  [Expr.mul (Expr.sel Sel.sbPart)
     (Expr.add (Expr.adviceQ 0 1) (Expr.neg (pow5Expr (Expr.adviceQ 0 0))))]

/-- `create_full_sbox_gate_ps`: `s_sub_bytes_full * (a_next - a^5)` for each lane. -/
def create_full_sbox_gate_ps : List Expr :=
  [Expr.mul (Expr.sel Sel.sbFull)
     (Expr.add (Expr.adviceQ 0 1) (Expr.neg (pow5Expr (Expr.adviceQ 0 0)))),
   Expr.mul (Expr.sel Sel.sbFull)
     (Expr.add (Expr.adviceQ 1 1) (Expr.neg (pow5Expr (Expr.adviceQ 1 0)))),
   Expr.mul (Expr.sel Sel.sbFull)
     (Expr.add (Expr.adviceQ 2 1) (Expr.neg (pow5Expr (Expr.adviceQ 2 0))))]

/-- `create_sbox_gate_rs`: `s_sub_bytes * (a_next - a^5)` for each lane. -/
def create_sbox_gate_rs : List Expr :=
  [Expr.mul (Expr.sel Sel.sbRs)
     (Expr.add (Expr.adviceQ 0 1) (Expr.neg (pow5Expr (Expr.adviceQ 0 0)))),
   Expr.mul (Expr.sel Sel.sbRs)
     (Expr.add (Expr.adviceQ 1 1) (Expr.neg (pow5Expr (Expr.adviceQ 1 0)))),
   Expr.mul (Expr.sel Sel.sbRs)
     (Expr.add (Expr.adviceQ 2 1) (Expr.neg (pow5Expr (Expr.adviceQ 2 0))))]

/-- `create_sbox_inv_gate_rs`: the forward relation written backwards,
`s_sub_bytes_inv * (a - a_next^5)` for each lane. -/
def create_sbox_inv_gate_rs : List Expr :=
  [Expr.mul (Expr.sel Sel.sbInvRs)
     (Expr.add (Expr.adviceQ 0 0) (Expr.neg (pow5Expr (Expr.adviceQ 0 1)))),
   Expr.mul (Expr.sel Sel.sbInvRs)
     (Expr.add (Expr.adviceQ 1 0) (Expr.neg (pow5Expr (Expr.adviceQ 1 1)))),
   Expr.mul (Expr.sel Sel.sbInvRs)
     (Expr.add (Expr.adviceQ 2 0) (Expr.neg (pow5Expr (Expr.adviceQ 2 1))))]

/-- `PoseidonChipConfig`: the specification plus the gate families registered by
`PoseidonChip::configure`, in creation order (ARC, MDS, full S-box, lane-0 S-box).
The column/selector allocations are represented by the fixed indexing used in the
gate ASTs. -/
structure PoseidonChipConfig where
  permutationParams : Poseidon
  gates : List (List Expr)
deriving DecidableEq

/-- `PoseidonChip::configure`: performs no validation of the parameters; it always
builds the gates and returns the configuration. -/
def PoseidonChip.configure (params : Poseidon) : PoseidonChipConfig :=
  ⟨params, [create_arc_gate, create_mds_mul_gate, create_full_sbox_gate_ps,
    create_part_sbox_gate_ps]⟩

/-- `RescueChipConfig`: the specification plus the gate families registered by
`RescueChip::configure`, in creation order. -/
structure RescueChipConfig where
  permutationParams : RescuePrime
  gates : List (List Expr)
deriving DecidableEq

/-- `RescueChip::configure`: performs no validation of the parameters either. -/
def RescueChip.configure (params : RescuePrime) : RescueChipConfig :=
  ⟨params, [create_arc_gate, create_mds_mul_gate, create_sbox_gate_rs,
    create_sbox_inv_gate_rs]⟩

/-- `PoseidonCircuit::configure`: build the hardcoded specification and configure the
chip with it. -/
def PoseidonCircuit.configure : PoseidonChipConfig := PoseidonChip.configure poseidonParams

/-- `RescueCircuit::configure`: likewise for Rescue-Prime. -/
def RescueCircuit.configure : RescueChipConfig := RescueChip.configure rescueParams

/-- Degree of a gate, the maximum over its constraint polynomials. -/
def gateDegree (g : List Expr) : Nat := g.foldl (fun d e => max d e.degree) 0

/-- Degree of a whole constraint system (list of gates): the maximum gate degree.
This is the quantity halo2's backend derives its supported degree bound from. -/
def csDegree (gs : List (List Expr)) : Nat := gs.foldl (fun d g => max d (gateDegree g)) 0

/-- Evaluate a constraint polynomial at a row against an advice assignment, a fixed
assignment and a selector assignment. -/
def Expr.eval (adv : Nat → Nat → Fp) (fix : Nat → Nat → Fp) (selOn : Sel → Nat → Bool)
    (row : Nat) : Expr → Fp
  | .const c => c
  | .sel s => if selOn s row then 1 else 0
  | .fixedQ c => fix row c
  | .adviceQ c r => adv (row + r) c
  | .neg e => -(Expr.eval adv fix selOn row e)
  | .add a b => Expr.eval adv fix selOn row a + Expr.eval adv fix selOn row b
  | .mul a b => Expr.eval adv fix selOn row a * Expr.eval adv fix selOn row b

/-- Advice assignment read off an emitted row list (unknown or absent cells read 0). -/
def adviceAt (rows : List OptSt) (r c : Nat) : Fp :=
  let row := rows.getD r ⟨none, none, none⟩
  match c with
  | 0 => row.s0.getD 0
  | 1 => row.s1.getD 0
  | _ => row.s2.getD 0

/-- Fixed assignment read off an emitted fixed-row list. -/
def fixedAt (fixedRows : List (Nat × Fp × Fp × Fp)) (r c : Nat) : Fp :=
  match fixedRows.find? (fun q => q.1 == r) with
  | none => 0
  | some q =>
    match c with
    | 0 => q.2.1
    | 1 => q.2.2.1
    | _ => q.2.2.2

/-- Selector assignment read off an emitted enable list. -/
def selOnOf (enables : List (Sel × Nat)) (s : Sel) (r : Nat) : Bool :=
  decide ((s, r) ∈ enables)

/-- Which gate family each selector gates, as wired by the `configure`s. -/
def gateOf : Sel → List Expr
  | .addRcs => create_arc_gate
  | .mdsMul => create_mds_mul_gate
  | .sbFull => create_full_sbox_gate_ps
  | .sbPart => create_part_sbox_gate_ps
  | .sbRs => create_sbox_gate_rs
  | .sbInvRs => create_sbox_inv_gate_rs

/-- MockProver-style polynomial-constraint check of a trace: every constraint of
every enabled gate evaluates to zero at its row. (Rows where a selector is off are
vacuous because every constraint carries its selector as a factor, so checking the
enabled rows is exhaustive.) -/
def gatesSatisfied (rows : List OptSt) (fixedRows : List (Nat × Fp × Fp × Fp))
    (enables : List (Sel × Nat)) : Bool :=
  enables.all fun p =>
    (gateOf p.1).all fun e =>
      decide (Expr.eval (adviceAt rows) (fixedAt fixedRows) (selOnOf enables) p.2 e = 0)
/-- The honest Poseidon witness trace for the `main` input (0, 1, 2). -/
def psHonest : PsState := poseidonPermute (some 0) (some 1) (some 2)

/-- A tampered copy of the lane-1 pass-through cell on the S-box output row of the
first lane-0-only (partial) round: that round is round index 4, its ARC result
sits at row 13 and its S-box result at row 14, so this is the row-14 cell of
column 1, shifted by 1 while lane 0 keeps its honest fifth power and lane 2 its
honest copy. -/
def psTamperSbRow : OptSt :=
  let arcRow := psHonest.rows.getD 13 ⟨none, none, none⟩
  ⟨arcRow.s0.map pow5, arcRow.s1.map (fun v => v + 1), arcRow.s2⟩

/-- The (adversarial) continuation of the witness trace after the tampered row:
its MDS image at row 15, then the remaining 56 lane-0-only rounds and 4 full
rounds, generated by the very same round function from cursor 15. -/
def psTamperTail : PsState :=
  (List.replicate 56 false ++ List.replicate 4 true).foldl
    (fun st b => poseidonRound b st)
    { state := mdsRowO psTamperSbRow
      constantIdx := 15
      offset := 15
      rows := [mdsRowO psTamperSbRow]
      fixedRows := []
      enables := []
      rcAccess := []
      copies := [] }

/-- The full tampered advice assignment: honest rows 0..13, the tampered S-box row
at 14, and the recomputed continuation at rows 15..195. -/
def psTamperedRows : List OptSt := psHonest.rows.take 14 ++ [psTamperSbRow] ++ psTamperTail.rows

/-- Fast modular exponentiation by repeated squaring, structurally recursive on a
fuel bound of the exponent's bit length (used only to certify the primality of
`P` in the kernel). -/
def powModAux (m a : Nat) : Nat → Nat → Nat
  | 0, _ => 1 % m
  | fuel+1, e =>
    if e = 0 then 1 % m
    else
      let h := powModAux m (a * a % m) fuel (e / 2)
      if e % 2 = 1 then a % m * h % m else h

/-- `a ^ e % m`, computed by repeated squaring (valid for `e < 2 ^ 256`). -/
def powMod (a e m : Nat) : Nat := powModAux m (a % m) 256 e
/-- The input-independent part of an emitted Poseidon trace: everything except the
advice values — row count, cursors, fixed assignments, selector enables,
constant-table reads and copy constraints. -/
structure PsShape where
  constantIdx : Nat
  offset : Nat
  nrows : Nat
  fixedRows : List (Nat × Fp × Fp × Fp)
  enables : List (Sel × Nat)
  rcAccess : List Nat
  copies : List ((Nat × Nat) × (Nat × Nat))
deriving DecidableEq

/-- Erase the values of a Poseidon region state, keeping its shape. -/
def psShapeOf (st : PsState) : PsShape where
  constantIdx := st.constantIdx
  offset := st.offset
  nrows := st.rows.length
  fixedRows := st.fixedRows
  enables := st.enables
  rcAccess := st.rcAccess
  copies := st.copies

/-- How one Poseidon round transforms the shape (established by
`psShapeOf_poseidonRound`). -/
def psShapeStep (b : Bool) (sh : PsShape) : PsShape where
  constantIdx := sh.constantIdx + 3
  offset := sh.offset + 3
  nrows := sh.nrows + 3
  fixedRows := sh.fixedRows ++
    [(sh.offset, rcPS sh.constantIdx, rcPS (sh.constantIdx + 1), rcPS (sh.constantIdx + 2))]
  enables := sh.enables ++
    [(Sel.addRcs, sh.offset), ((if b then Sel.sbFull else Sel.sbPart), sh.offset + 1),
     (Sel.mdsMul, sh.offset + 2)]
  rcAccess := sh.rcAccess ++ [sh.constantIdx, sh.constantIdx + 1, sh.constantIdx + 2]
  copies := sh.copies

/-- The input-independent part of an emitted Rescue-Prime trace. -/
structure RsShape where
  offset : Nat
  nrows : Nat
  fixedRows : List (Nat × Fp × Fp × Fp)
  enables : List (Sel × Nat)
  rcAccess : List Nat
  copies : List ((Nat × Nat) × (Nat × Nat))
deriving DecidableEq

/-- Erase the values of a Rescue-Prime region state, keeping its shape. -/
def rsShapeOf (st : RsState) : RsShape where
  offset := st.offset
  nrows := st.rows.length
  fixedRows := st.fixedRows
  enables := st.enables
  rcAccess := st.rcAccess
  copies := st.copies

/-- How one Rescue-Prime round transforms the shape (established by
`rsShapeOf_rescueRound`). -/
def rsShapeStep (r : Nat) (sh : RsShape) : RsShape where
  offset := sh.offset + 6
  nrows := sh.nrows + 6
  fixedRows := sh.fixedRows ++
    [(sh.offset + 2, (rcRS (2 * r)).1, (rcRS (2 * r)).2.1, (rcRS (2 * r)).2.2),
     (sh.offset + 5, (rcRS (2 * r + 1)).1, (rcRS (2 * r + 1)).2.1, (rcRS (2 * r + 1)).2.2)]
  enables := sh.enables ++
    [(Sel.sbRs, sh.offset), (Sel.mdsMul, sh.offset + 1), (Sel.addRcs, sh.offset + 2),
     (Sel.sbInvRs, sh.offset + 3), (Sel.mdsMul, sh.offset + 4), (Sel.addRcs, sh.offset + 5)]
  rcAccess := sh.rcAccess ++ [2 * r, 2 * r + 1]
  copies := sh.copies

/-- Column view of a concrete state triple (column index 0, 1 or 2). -/
def st3Col (s : St3) : Nat → Fp
  | 0 => s.c0
  | 1 => s.c1
  | _ => s.c2

/-- A two-row advice assignment: row 0 holds `cur`, every later row holds `next`.
Used to state what a single two-row gate constrains. -/
def advTwoRows (cur next : St3) (r c : Nat) : Fp :=
  if r = 0 then st3Col cur c else st3Col next c
/-- `powModAux` computes `a ^ e % m` whenever the fuel covers the exponent. -/
theorem powModAux_eq (m : Nat) (fuel : Nat) :
    ∀ (a e : Nat), e < 2 ^ fuel → powModAux m a fuel e = a ^ e % m := by
  induction fuel with
  | zero =>
    intro a e he
    have h1 : (2:Nat) ^ 0 = 1 := pow_zero 2
    have : e = 0 := by omega
    subst this
    simp [powModAux]
  | succ n ih =>
    intro a e he
    rcases Nat.eq_zero_or_pos e with h0 | h0
    · subst h0; simp [powModAux]
    · have h2 : (2:Nat) ^ (n+1) = 2 ^ n * 2 := pow_succ 2 n
      have hdiv : e / 2 < 2 ^ n := by omega
      have key : (a * a % m) ^ (e / 2) % m = a ^ (2 * (e/2)) % m := by
        rw [← Nat.pow_mod, ← pow_two, ← pow_mul]
      have hne : ¬ (e = 0) := by omega
      show (if e = 0 then 1 % m
        else
          let h := powModAux m (a * a % m) n (e / 2)
          if e % 2 = 1 then a % m * h % m else h) = a ^ e % m
      rw [if_neg hne]
      show (if e % 2 = 1 then a % m * (powModAux m (a * a % m) n (e / 2)) % m
            else powModAux m (a * a % m) n (e / 2)) = a ^ e % m
      rw [ih (a * a % m) (e / 2) hdiv, key]
      rcases Nat.mod_two_eq_zero_or_one e with hpar | hpar
      · rw [hpar]
        have : 2 * (e / 2) = e := by omega
        rw [this]
        simp
      · rw [hpar, if_pos rfl]
        calc a % m * (a ^ (2 * (e/2)) % m) % m
            = a * a ^ (2 * (e/2)) % m := (Nat.mul_mod a (a ^ (2 * (e/2))) m).symm
          _ = a ^ (2 * (e/2) + 1) % m := by rw [pow_succ']
          _ = a ^ e % m := by
              have : 2 * (e / 2) + 1 = e := by omega
              rw [this]

/-- `powMod` computes `a ^ e % m` for exponents below `2 ^ 256`. -/
theorem powMod_eq (a e m : Nat) (he : e < 2 ^ 256) : powMod a e m = a ^ e % m := by
  rw [powMod, powModAux_eq m 256 (a % m) e he, ← Nat.pow_mod]

/-- Powers of naturals in `ZMod P`, computed through `powMod`. -/
theorem zmod_natCast_pow_eq (a e : Nat) (he : e < 2 ^ 256) :
    ((a : ZMod P)) ^ e = ((powMod a e P : Nat) : ZMod P) := by
  rw [powMod_eq a e P he, ZMod.natCast_mod, Nat.cast_pow]

/-- The complete factorization of `P - 1` (BLS12-381's scalar-field 2-adicity 32). -/
theorem P_pred_factored : P - 1 =
    2^32 * (3 * (11 * (19 * (10177 * (125527 * (859267 * (906349^2 *
      (2508409 * (2529403 * (52437899 * 254760293^2)))))))))) := by decide

/-- Helper for the Lucas certificate: a computed power of 7 that is not 1 as a
natural and is below `P` is not 1 in `ZMod P` either. -/
theorem cast_powMod_ne_one (e : Nat) (he : e < 2 ^ 256)
    (h1 : powMod 7 e P ≠ 1) (h2 : powMod 7 e P < P) : ((7 : ZMod P)) ^ e ≠ 1 := by
  haveI : NeZero P := ⟨by decide⟩
  haveI : Fact (1 < P) := ⟨by decide⟩
  have hc : ((7 : ZMod P)) = ((7 : Nat) : ZMod P) := by norm_cast
  rw [hc, zmod_natCast_pow_eq 7 e he]
  intro hcast
  have hv : ((powMod 7 e P : Nat) : ZMod P).val = powMod 7 e P := ZMod.val_cast_of_lt h2
  rw [hcast, ZMod.val_one] at hv
  exact h1 hv.symm

/-- Powers of naturals in any `ZMod m`, computed through `powMod`. -/
theorem zmod_pow_gen (m a e : Nat) (he : e < 2 ^ 256) :
    ((a : ZMod m)) ^ e = ((powMod a e m : Nat) : ZMod m) := by
  rw [powMod_eq a e m he, ZMod.natCast_mod, Nat.cast_pow]

/-- A power whose `powMod` value is 1 is 1 in `ZMod m`. -/
theorem cast_powMod_eq_one_gen (m a e : Nat) (he : e < 2 ^ 256)
    (h1 : powMod a e m = 1) : ((a : ZMod m)) ^ e = 1 := by
  rw [zmod_pow_gen m a e he, h1, Nat.cast_one]

/-- A power whose `powMod` value is neither 1 nor reduced past `m` is not 1 in
`ZMod m`. -/
theorem cast_powMod_ne_one_gen (m a e : Nat) (he : e < 2 ^ 256) (hm : 1 < m)
    (h1 : powMod a e m ≠ 1) (h2 : powMod a e m < m) : ((a : ZMod m)) ^ e ≠ 1 := by
  haveI : NeZero m := ⟨by omega⟩
  haveI : Fact (1 < m) := ⟨hm⟩
  rw [zmod_pow_gen m a e he]
  intro hcast
  have hv : ((powMod a e m : Nat) : ZMod m).val = powMod a e m := ZMod.val_cast_of_lt h2
  rw [hcast, ZMod.val_one] at hv
  exact h1 hv.symm

/-- 52437899 is prime (Lucas certificate, witness 2, 52437898 = 2 * 43 * 609743).
Kept as an explicit certificate so the proof term stays shallow. -/
theorem prime_52437899 : Nat.Prime 52437899 := by
  have hp2 : Nat.Prime 2 := by norm_num
  have hp43 : Nat.Prime 43 := by norm_num
  have hp609743 : Nat.Prime 609743 := by norm_num
  apply lucas_primality 52437899 (2 : ZMod 52437899)
  · have hc : ((2 : ZMod 52437899)) = ((2 : Nat) : ZMod 52437899) := by norm_cast
    rw [hc]
    exact cast_powMod_eq_one_gen 52437899 2 (52437899 - 1) (by decide) (by decide)
  · intro q hq hqdvd
    have hfac : (52437899 : Nat) - 1 = 2 * (43 * 609743) := by decide
    rw [hfac] at hqdvd
    have heq : q = 2 ∨ q = 43 ∨ q = 609743 := by
      rcases (Nat.Prime.dvd_mul hq).mp hqdvd with h | h
      · exact Or.inl ((Nat.prime_dvd_prime_iff_eq hq hp2).mp h)
      rcases (Nat.Prime.dvd_mul hq).mp h with h | h
      · exact Or.inr (Or.inl ((Nat.prime_dvd_prime_iff_eq hq hp43).mp h))
      · exact Or.inr (Or.inr ((Nat.prime_dvd_prime_iff_eq hq hp609743).mp h))
    have hc : ((2 : ZMod 52437899)) = ((2 : Nat) : ZMod 52437899) := by norm_cast
    rw [hc]
    rcases heq with rfl | rfl | rfl <;>
      exact cast_powMod_ne_one_gen 52437899 2 _ (by decide) (by decide) (by decide) (by decide)

/-- 63690073 is prime (Lucas certificate, witness 7, 63690072 = 2^3 * 3 * 2653753). -/
theorem prime_63690073 : Nat.Prime 63690073 := by
  have hp2 : Nat.Prime 2 := by norm_num
  have hp3 : Nat.Prime 3 := by norm_num
  have hp2653753 : Nat.Prime 2653753 := by norm_num
  apply lucas_primality 63690073 (7 : ZMod 63690073)
  · have hc : ((7 : ZMod 63690073)) = ((7 : Nat) : ZMod 63690073) := by norm_cast
    rw [hc]
    exact cast_powMod_eq_one_gen 63690073 7 (63690073 - 1) (by decide) (by decide)
  · intro q hq hqdvd
    have hfac : (63690073 : Nat) - 1 = 2 ^ 3 * (3 * 2653753) := by decide
    rw [hfac] at hqdvd
    have heq : q = 2 ∨ q = 3 ∨ q = 2653753 := by
      rcases (Nat.Prime.dvd_mul hq).mp hqdvd with h | h
      · exact Or.inl ((Nat.prime_dvd_prime_iff_eq hq hp2).mp (hq.dvd_of_dvd_pow h))
      rcases (Nat.Prime.dvd_mul hq).mp h with h | h
      · exact Or.inr (Or.inl ((Nat.prime_dvd_prime_iff_eq hq hp3).mp h))
      · exact Or.inr (Or.inr ((Nat.prime_dvd_prime_iff_eq hq hp2653753).mp h))
    have hc : ((7 : ZMod 63690073)) = ((7 : Nat) : ZMod 63690073) := by norm_cast
    rw [hc]
    rcases heq with rfl | rfl | rfl <;>
      exact cast_powMod_ne_one_gen 63690073 7 _ (by decide) (by decide) (by decide) (by decide)

/-- 254760293 is prime (Lucas certificate, witness 2, 254760292 = 2^2 * 63690073). -/
theorem prime_254760293 : Nat.Prime 254760293 := by
  have hp2 : Nat.Prime 2 := by norm_num
  have hp63690073 : Nat.Prime 63690073 := prime_63690073
  apply lucas_primality 254760293 (2 : ZMod 254760293)
  · have hc : ((2 : ZMod 254760293)) = ((2 : Nat) : ZMod 254760293) := by norm_cast
    rw [hc]
    exact cast_powMod_eq_one_gen 254760293 2 (254760293 - 1) (by decide) (by decide)
  · intro q hq hqdvd
    have hfac : (254760293 : Nat) - 1 = 2 ^ 2 * 63690073 := by decide
    rw [hfac] at hqdvd
    have heq : q = 2 ∨ q = 63690073 := by
      rcases (Nat.Prime.dvd_mul hq).mp hqdvd with h | h
      · exact Or.inl ((Nat.prime_dvd_prime_iff_eq hq hp2).mp (hq.dvd_of_dvd_pow h))
      · exact Or.inr ((Nat.prime_dvd_prime_iff_eq hq hp63690073).mp h)
    have hc : ((2 : ZMod 254760293)) = ((2 : Nat) : ZMod 254760293) := by norm_cast
    rw [hc]
    rcases heq with rfl | rfl <;>
      exact cast_powMod_ne_one_gen 254760293 2 _ (by decide) (by decide) (by decide) (by decide)

/-- The shared field modulus is prime (Lucas certificate, witness 7, against the
factorization `P_pred_factored`). -/
theorem P_prime : Nat.Prime P := by
  have hp2 : Nat.Prime 2 := by norm_num
  have hp3 : Nat.Prime 3 := by norm_num
  have hp11 : Nat.Prime 11 := by norm_num
  have hp19 : Nat.Prime 19 := by norm_num
  have hp10177 : Nat.Prime 10177 := by norm_num
  have hp125527 : Nat.Prime 125527 := by norm_num
  have hp859267 : Nat.Prime 859267 := by norm_num
  have hp906349 : Nat.Prime 906349 := by norm_num
  have hp2508409 : Nat.Prime 2508409 := by norm_num
  have hp2529403 : Nat.Prime 2529403 := by norm_num
  have hp52437899 : Nat.Prime 52437899 := prime_52437899
  have hp254760293 : Nat.Prime 254760293 := prime_254760293
  apply lucas_primality P (7 : ZMod P)
  · have hc : ((7 : ZMod P)) = ((7 : Nat) : ZMod P) := by norm_cast
    rw [hc, zmod_natCast_pow_eq 7 (P - 1) (by decide)]
    have hone : powMod 7 (P - 1) P = 1 := by decide
    rw [hone, Nat.cast_one]
  · intro q hq hqdvd
    rw [P_pred_factored] at hqdvd
    have hq2 : q ∣ 2^32 ∨ _ := (Nat.Prime.dvd_mul hq).mp hqdvd
    have heq : q = 2 ∨ q = 3 ∨ q = 11 ∨ q = 19 ∨ q = 10177 ∨ q = 125527 ∨
        q = 859267 ∨ q = 906349 ∨ q = 2508409 ∨ q = 2529403 ∨
        q = 52437899 ∨ q = 254760293 := by
      rcases hq2 with h | h
      · exact Or.inl ((Nat.prime_dvd_prime_iff_eq hq hp2).mp (hq.dvd_of_dvd_pow h))
      rcases (Nat.Prime.dvd_mul hq).mp h with h | h
      · exact Or.inr (Or.inl ((Nat.prime_dvd_prime_iff_eq hq hp3).mp h))
      rcases (Nat.Prime.dvd_mul hq).mp h with h | h
      · exact Or.inr (Or.inr (Or.inl ((Nat.prime_dvd_prime_iff_eq hq hp11).mp h)))
      rcases (Nat.Prime.dvd_mul hq).mp h with h | h
      · exact Or.inr (Or.inr (Or.inr (Or.inl ((Nat.prime_dvd_prime_iff_eq hq hp19).mp h))))
      rcases (Nat.Prime.dvd_mul hq).mp h with h | h
      · exact Or.inr (Or.inr (Or.inr (Or.inr (Or.inl
          ((Nat.prime_dvd_prime_iff_eq hq hp10177).mp h)))))
      rcases (Nat.Prime.dvd_mul hq).mp h with h | h
      · exact Or.inr (Or.inr (Or.inr (Or.inr (Or.inr (Or.inl
          ((Nat.prime_dvd_prime_iff_eq hq hp125527).mp h))))))
      rcases (Nat.Prime.dvd_mul hq).mp h with h | h
      · exact Or.inr (Or.inr (Or.inr (Or.inr (Or.inr (Or.inr (Or.inl
          ((Nat.prime_dvd_prime_iff_eq hq hp859267).mp h)))))))
      rcases (Nat.Prime.dvd_mul hq).mp h with h | h
      · exact Or.inr (Or.inr (Or.inr (Or.inr (Or.inr (Or.inr (Or.inr (Or.inl
          ((Nat.prime_dvd_prime_iff_eq hq hp906349).mp (hq.dvd_of_dvd_pow h)))))))))
      rcases (Nat.Prime.dvd_mul hq).mp h with h | h
      · exact Or.inr (Or.inr (Or.inr (Or.inr (Or.inr (Or.inr (Or.inr (Or.inr (Or.inl
          ((Nat.prime_dvd_prime_iff_eq hq hp2508409).mp h)))))))))
      rcases (Nat.Prime.dvd_mul hq).mp h with h | h
      · exact Or.inr (Or.inr (Or.inr (Or.inr (Or.inr (Or.inr (Or.inr (Or.inr (Or.inr (Or.inl
          ((Nat.prime_dvd_prime_iff_eq hq hp2529403).mp h))))))))))
      rcases (Nat.Prime.dvd_mul hq).mp h with h | h
      · exact Or.inr (Or.inr (Or.inr (Or.inr (Or.inr (Or.inr (Or.inr (Or.inr (Or.inr (Or.inr
          (Or.inl ((Nat.prime_dvd_prime_iff_eq hq hp52437899).mp h)))))))))))
      · exact Or.inr (Or.inr (Or.inr (Or.inr (Or.inr (Or.inr (Or.inr (Or.inr (Or.inr (Or.inr
          (Or.inr ((Nat.prime_dvd_prime_iff_eq hq hp254760293).mp
            (hq.dvd_of_dvd_pow h))))))))))))
    rcases heq with rfl | rfl | rfl | rfl | rfl | rfl | rfl | rfl | rfl | rfl | rfl | rfl
    all_goals exact cast_powMod_ne_one _ (by decide) (by decide) (by decide)

/-- If `5 * ai ≡ 1 (mod P - 1)` then `z ^ (5 * ai) = z` for every field element. -/
theorem fp_pow_five_mul (ai : Nat) (hai : (5 * ai) % (P - 1) = 1) (z : Fp) :
    z ^ (5 * ai) = z := by
  haveI : Fact (Nat.Prime P) := ⟨P_prime⟩
  have hk : 5 * ai = (P - 1) * ((5 * ai) / (P - 1)) + 1 := by
    conv_lhs => rw [← Nat.div_add_mod (5 * ai) (P - 1)]
    rw [hai]
  rcases eq_or_ne z 0 with hz | hz
  · subst hz
    have h5 : 5 * ai ≠ 0 := by omega
    rw [zero_pow h5]
  · rw [hk, pow_add, pow_mul, ZMod.pow_card_sub_one_eq_one hz, one_pow, pow_one, one_mul]

/-- Raising an `ai`-th power to the 5th recovers the base. -/
theorem fp_pow_ai_then_five (ai : Nat) (hai : (5 * ai) % (P - 1) = 1) (z : Fp) :
    (z ^ ai) ^ 5 = z := by
  rw [← pow_mul, Nat.mul_comm ai 5, fp_pow_five_mul ai hai]

/-- Raising a 5th power to the `ai`-th recovers the base. -/
theorem fp_pow_five_then_ai (ai : Nat) (hai : (5 * ai) % (P - 1) = 1) (z : Fp) :
    (z ^ 5) ^ ai = z := by
  rw [← pow_mul, fp_pow_five_mul ai hai]
/-- One Poseidon round transforms the trace shape by `psShapeStep`, independently of
the advice values. -/
theorem psShapeOf_poseidonRound (b : Bool) (st : PsState) :
    psShapeOf (poseidonRound b st) = psShapeStep b (psShapeOf st) := by
  cases b <;>
    simp [poseidonRound, psShapeOf, psShapeStep, List.append_assoc]

/-- Shape of a folded Poseidon round sequence. -/
theorem psShapeOf_foldl (l : List Bool) :
    ∀ st : PsState, psShapeOf (l.foldl (fun s b => poseidonRound b s) st)
      = l.foldl (fun sh b => psShapeStep b sh) (psShapeOf st) := by
  induction l with
  | nil => intro st; rfl
  | cons b t ih =>
    intro st
    rw [List.foldl_cons, List.foldl_cons, ih, psShapeOf_poseidonRound]

/-- The Poseidon trace shape does not depend on the input values. -/
theorem psShape_input_indep (params : Poseidon) (a0 a1 a2 b0 b1 b2 : Option Fp) :
    psShapeOf (PoseidonChip.permute params a0 a1 a2)
      = psShapeOf (PoseidonChip.permute params b0 b1 b2) := by
  rw [PoseidonChip.permute, PoseidonChip.permute, psShapeOf_foldl, psShapeOf_foldl]
  rfl

/-- Each Poseidon shape step adds three rows. -/
theorem psShapeStep_nrows (b : Bool) (sh : PsShape) :
    (psShapeStep b sh).nrows = sh.nrows + 3 := rfl

/-- Row count of a folded Poseidon shape sequence. -/
theorem psShape_foldl_nrows (l : List Bool) :
    ∀ sh : PsShape, (l.foldl (fun s b => psShapeStep b s) sh).nrows
      = sh.nrows + 3 * l.length := by
  induction l with
  | nil => intro sh; simp
  | cons b t ih =>
    intro sh
    rw [List.foldl_cons, ih, psShapeStep_nrows, List.length_cons]
    omega

/-- Length of the Poseidon round schedule. -/
theorem psSchedule_length (fr pr : Nat) :
    (psSchedule fr pr).length = fr / 2 + pr + fr / 2 := by
  simp [psSchedule]
  omega

/-- One Rescue-Prime round transforms the trace shape by `rsShapeStep`,
independently of the advice values and of `alpha_inv`. -/
theorem rsShapeOf_rescueRound (ai r : Nat) (st : RsState) :
    rsShapeOf (rescueRound ai r st) = rsShapeStep r (rsShapeOf st) := by
  simp [rescueRound, rescueMdsMul, rescueInjectRcs, rsShapeOf, rsShapeStep,
    List.append_assoc]

/-- Shape of a folded Rescue-Prime round sequence. -/
theorem rsShapeOf_foldl (ai : Nat) (l : List Nat) :
    ∀ st : RsState, rsShapeOf (l.foldl (fun s r => rescueRound ai r s) st)
      = l.foldl (fun sh r => rsShapeStep r sh) (rsShapeOf st) := by
  induction l with
  | nil => intro st; rfl
  | cons r t ih =>
    intro st
    rw [List.foldl_cons, List.foldl_cons, ih, rsShapeOf_rescueRound]

/-- The Rescue-Prime trace shape does not depend on the input values. -/
theorem rsShape_input_indep (params : RescuePrime) (a0 a1 a2 b0 b1 b2 : Option Fp) :
    rsShapeOf (RescueChip.permute params a0 a1 a2)
      = rsShapeOf (RescueChip.permute params b0 b1 b2) := by
  rw [RescueChip.permute, RescueChip.permute, rsShapeOf_foldl, rsShapeOf_foldl]
  rfl

/-- Each Rescue-Prime shape step adds six rows. -/
theorem rsShapeStep_nrows (r : Nat) (sh : RsShape) :
    (rsShapeStep r sh).nrows = sh.nrows + 6 := rfl

/-- Row count of a folded Rescue-Prime shape sequence. -/
theorem rsShape_foldl_nrows (l : List Nat) :
    ∀ sh : RsShape, (l.foldl (fun s r => rsShapeStep r s) sh).nrows
      = sh.nrows + 6 * l.length := by
  induction l with
  | nil => intro sh; simp
  | cons r t ih =>
    intro sh
    rw [List.foldl_cons, ih, rsShapeStep_nrows, List.length_cons]
    omega
/-- On known values, one in-circuit Poseidon round computes exactly one spec-side
round (state and constant cursor). -/
theorem poseidonRound_lift (b : Bool) (st : PsState) (p : Nat × St3)
    (hs : st.state = liftSt p.2) (hc : st.constantIdx = p.1) :
    (poseidonRound b st).state = liftSt (psRoundF b p).2 ∧
    (poseidonRound b st).constantIdx = (psRoundF b p).1 := by
  obtain ⟨c, s⟩ := p
  cases b <;>
    simp [poseidonRound, psRoundF, liftSt, arcAddF, sboxFullF, sboxL0F, mdsApplyF,
      mdsRowO, omap3, hs, hc, pow5] at hs hc ⊢

/-- On known values, a folded sequence of in-circuit Poseidon rounds computes the
folded spec-side rounds. -/
theorem psFoldl_lift (l : List Bool) :
    ∀ (st : PsState) (p : Nat × St3), st.state = liftSt p.2 → st.constantIdx = p.1 →
      (l.foldl (fun s b => poseidonRound b s) st).state
        = liftSt ((l.foldl (fun q b => psRoundF b q) p).2) ∧
      (l.foldl (fun s b => poseidonRound b s) st).constantIdx
        = (l.foldl (fun q b => psRoundF b q) p).1 := by
  induction l with
  | nil => intro st p hs hc; exact ⟨hs, hc⟩
  | cons b t ih =>
    intro st p hs hc
    rw [List.foldl_cons, List.foldl_cons]
    have hr := poseidonRound_lift b st p hs hc
    exact ih (poseidonRound b st) (psRoundF b p) hr.1 hr.2

/-- On known values, one in-circuit Rescue-Prime round computes exactly one
spec-side round. -/
theorem rescueRound_lift (ai r : Nat) (st : RsState) (s : St3) (hs : st.state = liftSt s) :
    (rescueRound ai r st).state = liftSt (rsRoundF ai r s) := by
  simp [rescueRound, rescueMdsMul, rescueInjectRcs, rsRoundF, rsInjectF, rsInvSboxF,
    sboxFullF, mdsApplyF, mdsRowO, omap3, liftSt, hs, pow5]

/-- On known values, a folded sequence of in-circuit Rescue-Prime rounds computes
the folded spec-side rounds. -/
theorem rsFoldl_lift (ai : Nat) (l : List Nat) :
    ∀ (st : RsState) (s : St3), st.state = liftSt s →
      (l.foldl (fun t r => rescueRound ai r t) st).state
        = liftSt (l.foldl (fun t r => rsRoundF ai r t) s) := by
  induction l with
  | nil => intro st s hs; exact hs
  | cons r t ih =>
    intro st s hs
    rw [List.foldl_cons, List.foldl_cons]
    exact ih _ _ (rescueRound_lift ai r st s hs)

/-- Claim C1: for every concrete initial state triple, the final state of the
in-circuit witness generation (`PoseidonChip::permute` with full_rounds = 8,
partial_rounds = 57, alpha = 5; `RescueChip::permute` with rounds = 4) equals the
direct out-of-circuit evaluation of the corresponding permutation function (the
same ARC/S-box/MDS round schedule). -/
theorem c1_witness_equals_direct_eval (a0 a1 a2 : Fp) :
    (poseidonPermute (some a0) (some a1) (some a2)).state = liftSt (poseidonF ⟨a0, a1, a2⟩) ∧
    (rescuePermute (some a0) (some a1) (some a2)).state = liftSt (rescueF ⟨a0, a1, a2⟩) := by
  constructor
  · have h := (psFoldl_lift
      (psSchedule poseidonParams.fullRounds poseidonParams.partRounds)
      (psInit (some a0) (some a1) (some a2)) (0, ⟨a0, a1, a2⟩) rfl rfl).1
    simpa [poseidonPermute, PoseidonChip.permute, poseidonF] using h
  · have h := rsFoldl_lift rescueParams.alphaInv (List.range rescueParams.rounds)
      (rsInit (some a0) (some a1) (some a2)) ⟨a0, a1, a2⟩ rfl
    simpa [rescuePermute, RescueChip.permute, rescueF] using h
/-- Trace fields seen through the shape eraser (definitional views used to move
facts proved for one input assignment to all of them). -/
theorem psState_rowsLen_view (x : PsState) : x.rows.length = (psShapeOf x).nrows := rfl

theorem psState_rcAccess_view (x : PsState) : x.rcAccess = (psShapeOf x).rcAccess := rfl

theorem psState_constantIdx_view (x : PsState) : x.constantIdx = (psShapeOf x).constantIdx := rfl

theorem psState_enables_view (x : PsState) : x.enables = (psShapeOf x).enables := rfl

theorem psState_copies_view (x : PsState) : x.copies = (psShapeOf x).copies := rfl

theorem rsState_rcAccess_view (x : RsState) : x.rcAccess = (rsShapeOf x).rcAccess := rfl

theorem rsState_enables_view (x : RsState) : x.enables = (rsShapeOf x).enables := rfl

/-- Claim C4: Poseidon witness generation runs full_rounds/2 full rounds, then
partial_rounds lane-0-only rounds, then full_rounds/2 full rounds; each round
consumes exactly 3 constants in table order, applies ARC, enables the full or the
lane-0-only S-box selector according to the round kind, applies MDS, and appends
exactly the three trace rows (ARC result, S-box result, MDS result) beyond the
initial-state row. For the hardcoded spec the trace therefore has 1 + 3 * 65 rows
and consumes constants 0..194 in order; the expected per-round selector pattern
marks rounds 0..3 and 61..64 full and rounds 4..60 lane-0-only. -/
theorem c4_poseidon_round_structure :
    (∀ (st : PsState) (b : Bool),
      (poseidonRound b st).rcAccess
        = st.rcAccess ++ [st.constantIdx, st.constantIdx + 1, st.constantIdx + 2] ∧
      (poseidonRound b st).constantIdx = st.constantIdx + 3 ∧
      (poseidonRound b st).enables
        = st.enables ++ [(Sel.addRcs, st.offset),
            ((if b then Sel.sbFull else Sel.sbPart), st.offset + 1),
            (Sel.mdsMul, st.offset + 2)] ∧
      (poseidonRound b st).rows
        = (let arcRow : OptSt :=
            ⟨st.state.s0.map (fun v => v + rcPS st.constantIdx),
             st.state.s1.map (fun v => v + rcPS (st.constantIdx + 1)),
             st.state.s2.map (fun v => v + rcPS (st.constantIdx + 2))⟩
          let sbRow : OptSt :=
            if b then ⟨arcRow.s0.map pow5, arcRow.s1.map pow5, arcRow.s2.map pow5⟩
            else ⟨arcRow.s0.map pow5, arcRow.s1, arcRow.s2⟩
          st.rows ++ [arcRow, sbRow, mdsRowO sbRow])) ∧
    (∀ a0 a1 a2 : Option Fp,
      (poseidonPermute a0 a1 a2).rows.length
        = 1 + 3 * (poseidonParams.fullRounds / 2 + poseidonParams.partRounds +
            poseidonParams.fullRounds / 2) ∧
      (poseidonPermute a0 a1 a2).rcAccess = List.range (3 * 65) ∧
      (poseidonPermute a0 a1 a2).enables
        = ((List.range 65).map (fun r =>
            [(Sel.addRcs, 3 * r),
             ((if r < 4 ∨ 61 ≤ r then Sel.sbFull else Sel.sbPart), 3 * r + 1),
             (Sel.mdsMul, 3 * r + 2)])).flatten) := by
  constructor
  · intro st b
    refine ⟨?_, ?_, ?_, ?_⟩ <;> cases b <;> simp [poseidonRound, List.append_assoc]
  · intro a0 a1 a2
    have hsh : psShapeOf (poseidonPermute a0 a1 a2)
        = psShapeOf (poseidonPermute none none none) :=
      psShape_input_indep poseidonParams a0 a1 a2 none none none
    refine ⟨?_, ?_, ?_⟩
    · rw [psState_rowsLen_view, hsh]; decide
    · rw [psState_rcAccess_view, hsh]; decide
    · rw [psState_enables_view, hsh]; decide

/-- Claim C5: Rescue-Prime witness generation runs exactly `rounds` rounds; each
round performs, in order, forward S-box, MDS, injection of constant-table row 2i,
inverse S-box, MDS, injection of constant-table row 2i + 1, consuming 6 constants
per round in table order and appending the six corresponding trace rows; for the
hardcoded spec the per-row selector pattern and the table-row access order
0,1,...,7 follow. -/
theorem c5_rescue_round_structure :
    (∀ (st : RsState) (ai r : Nat),
      (rescueRound ai r st).enables
        = st.enables ++ [(Sel.sbRs, st.offset), (Sel.mdsMul, st.offset + 1),
            (Sel.addRcs, st.offset + 2), (Sel.sbInvRs, st.offset + 3),
            (Sel.mdsMul, st.offset + 4), (Sel.addRcs, st.offset + 5)] ∧
      (rescueRound ai r st).rcAccess = st.rcAccess ++ [2 * r, 2 * r + 1] ∧
      (rescueRound ai r st).rows
        = (let sb : OptSt :=
            ⟨st.state.s0.map pow5, st.state.s1.map pow5, st.state.s2.map pow5⟩
          let ml1 : OptSt := mdsRowO sb
          let ar1 : OptSt :=
            ⟨ml1.s0.map (fun v => v + (rcRS (2 * r)).1),
             ml1.s1.map (fun v => v + (rcRS (2 * r)).2.1),
             ml1.s2.map (fun v => v + (rcRS (2 * r)).2.2)⟩
          let iv : OptSt :=
            ⟨ar1.s0.map (fun v => v ^ ai), ar1.s1.map (fun v => v ^ ai),
             ar1.s2.map (fun v => v ^ ai)⟩
          let ml2 : OptSt := mdsRowO iv
          let ar2 : OptSt :=
            ⟨ml2.s0.map (fun v => v + (rcRS (2 * r + 1)).1),
             ml2.s1.map (fun v => v + (rcRS (2 * r + 1)).2.1),
             ml2.s2.map (fun v => v + (rcRS (2 * r + 1)).2.2)⟩
          st.rows ++ [sb, ml1, ar1, iv, ml2, ar2]) ∧
      (rescueRound ai r st).rows.length = st.rows.length + 6) ∧
    (∀ a0 a1 a2 : Option Fp,
      (rescuePermute a0 a1 a2).rcAccess = [0, 1, 2, 3, 4, 5, 6, 7] ∧
      (rescuePermute a0 a1 a2).enables
        = ((List.range 4).map (fun r =>
            [(Sel.sbRs, 6 * r), (Sel.mdsMul, 6 * r + 1), (Sel.addRcs, 6 * r + 2),
             (Sel.sbInvRs, 6 * r + 3), (Sel.mdsMul, 6 * r + 4),
             (Sel.addRcs, 6 * r + 5)])).flatten) := by
  constructor
  · intro st ai r
    refine ⟨?_, ?_, ?_, ?_⟩ <;>
      simp [rescueRound, rescueMdsMul, rescueInjectRcs, List.append_assoc]
  · intro a0 a1 a2
    have hsh : rsShapeOf (rescuePermute a0 a1 a2)
        = rsShapeOf (rescuePermute none none none) :=
      rsShape_input_indep rescueParams a0 a1 a2 none none none
    refine ⟨?_, ?_⟩
    · rw [rsState_rcAccess_view, hsh]; decide
    · rw [rsState_enables_view, hsh]; decide

/-- Claim C7: for either construction, the circuit shape — row count, selector
pattern, fixed-column (round-constant) assignments, table reads and copy
constraints — is the same for any two runs with the same specification, whether
the inputs are known or unknown placeholders; the total row count is a function
of the specification only. -/
theorem c7_shape_depends_on_spec_only (params : Poseidon) (rparams : RescuePrime)
    (a0 a1 a2 b0 b1 b2 : Option Fp) :
    psShapeOf (PoseidonChip.permute params a0 a1 a2)
      = psShapeOf (PoseidonChip.permute params b0 b1 b2) ∧
    (PoseidonChip.permute params a0 a1 a2).rows.length
      = 1 + 3 * (params.fullRounds / 2 + params.partRounds + params.fullRounds / 2) ∧
    rsShapeOf (RescueChip.permute rparams a0 a1 a2)
      = rsShapeOf (RescueChip.permute rparams b0 b1 b2) ∧
    (RescueChip.permute rparams a0 a1 a2).rows.length = 1 + 6 * rparams.rounds := by
  refine ⟨psShape_input_indep params a0 a1 a2 b0 b1 b2, ?_,
    rsShape_input_indep rparams a0 a1 a2 b0 b1 b2, ?_⟩
  · rw [psState_rowsLen_view, PoseidonChip.permute, psShapeOf_foldl,
      psShape_foldl_nrows, psSchedule_length]
    rfl
  · rw [show (RescueChip.permute rparams a0 a1 a2).rows.length
        = (rsShapeOf (RescueChip.permute rparams a0 a1 a2)).nrows from rfl,
      RescueChip.permute, rsShapeOf_foldl, rsShape_foldl_nrows, List.length_range]
    rfl

/-- Claim C10: under the hardcoded parameters, witness generation never reads a
round-constant table out of bounds: the Poseidon accesses are exactly 0..194 in
order (cursor start values 0, 3, ..., 192, final cursor 195, all reads inside the
195-entry table), and Rescue-Prime reads table rows 0..7, each exactly once. -/
theorem c10_constant_reads_in_bounds (a0 a1 a2 : Option Fp) :
    (poseidonPermute a0 a1 a2).rcAccess = List.range 195 ∧
    ((poseidonPermute a0 a1 a2).rcAccess.filter (fun i => i % 3 == 0))
      = (List.range 65).map (fun r => 3 * r) ∧
    (poseidonPermute a0 a1 a2).constantIdx = 195 ∧
    ROUND_CONSTANTS_PS.length = 195 ∧
    (∀ i ∈ (poseidonPermute a0 a1 a2).rcAccess, i < ROUND_CONSTANTS_PS.length) ∧
    (rescuePermute a0 a1 a2).rcAccess = [0, 1, 2, 3, 4, 5, 6, 7] ∧
    ROUND_CONSTANTS_RS.length = 8 ∧
    (∀ i ∈ (rescuePermute a0 a1 a2).rcAccess, i < ROUND_CONSTANTS_RS.length) := by
  have hsh : psShapeOf (poseidonPermute a0 a1 a2)
      = psShapeOf (poseidonPermute none none none) :=
    psShape_input_indep poseidonParams a0 a1 a2 none none none
  have hrs : rsShapeOf (rescuePermute a0 a1 a2)
      = rsShapeOf (rescuePermute none none none) :=
    rsShape_input_indep rescueParams a0 a1 a2 none none none
  have hacc : (poseidonPermute a0 a1 a2).rcAccess = List.range 195 := by
    rw [psState_rcAccess_view, hsh]; decide
  have hrac : (rescuePermute a0 a1 a2).rcAccess = [0, 1, 2, 3, 4, 5, 6, 7] := by
    rw [rsState_rcAccess_view, hrs]; decide
  refine ⟨hacc, ?_, ?_, by decide, ?_, hrac, by decide, ?_⟩
  · rw [hacc]; decide
  · rw [psState_constantIdx_view, hsh]; decide
  · rw [hacc]; decide
  · rw [hrac]; decide
/-- Claim C3, counterexample: specification construction performs no validation.
`RescueChip::configure` proceeds and returns a full configuration (with the same
gates as the real circuit) for a parameter set whose `alpha * alpha_inv` is not
1 modulo `P - 1`, and `PoseidonChip::configure` proceeds for round counts whose
expected constant consumption does not match the table length; nothing is
rejected at construction. -/
theorem c3_counterexample_construction_never_rejects :
    (RescueChip.configure ⟨4, 5, 3⟩).permutationParams = ⟨4, 5, 3⟩ ∧
    (RescueChip.configure ⟨4, 5, 3⟩).gates = RescueCircuit.configure.gates ∧
    (5 * 3) % (P - 1) ≠ 1 ∧
    (PoseidonChip.configure ⟨57, 6, 195, 5⟩).permutationParams = ⟨57, 6, 195, 5⟩ ∧
    (PoseidonChip.configure ⟨57, 6, 195, 5⟩).gates = PoseidonCircuit.configure.gates ∧
    ROUND_CONSTANTS_PS.length ≠ 3 * (6 + 57) := by decide

/-- Claim C3, amended: construction performs no validation, but the hardcoded
specifications do satisfy the claimed invariants: the Poseidon table length
equals 3 * (full_rounds + partial_rounds) (and the recorded `n`), the
Rescue-Prime table has 2 * rounds rows of 3 constants, and
`alpha * alpha_inv ≡ 1 (mod P - 1)` for `alpha = 5`. -/
theorem c3_amended_invariants_hold_unvalidated :
    ROUND_CONSTANTS_PS.length
      = 3 * (PoseidonCircuit.configure.permutationParams.fullRounds
          + PoseidonCircuit.configure.permutationParams.partRounds) ∧
    PoseidonCircuit.configure.permutationParams.n = ROUND_CONSTANTS_PS.length ∧
    ROUND_CONSTANTS_RS.length = 2 * RescueCircuit.configure.permutationParams.rounds ∧
    RescueCircuit.configure.permutationParams.alpha = 5 ∧
    (5 * RescueCircuit.configure.permutationParams.alphaInv) % (P - 1) = 1 := by decide

/-- Claim C9: every forward-S-box constraint polynomial (Poseidon full and
lane-0-only gates, Rescue-Prime forward gate) has degree alpha + 1 = 6 counting
the selector factor, and this does not exceed the overall constraint-system
degree (the maximum over all registered gates, from which the backend derives the
gate degree it supports). -/
theorem c9_forward_sbox_gate_degrees :
    (∀ e ∈ create_full_sbox_gate_ps, e.degree = 6) ∧
    (∀ e ∈ create_part_sbox_gate_ps, e.degree = 6) ∧
    (∀ e ∈ create_sbox_gate_rs, e.degree = 6) ∧
    poseidonParams.alpha = 5 ∧ rescueParams.alpha = 5 ∧
    csDegree PoseidonCircuit.configure.gates = 6 ∧
    csDegree RescueCircuit.configure.gates = 6 ∧
    gateDegree create_full_sbox_gate_ps ≤ csDegree PoseidonCircuit.configure.gates ∧
    gateDegree create_part_sbox_gate_ps ≤ csDegree PoseidonCircuit.configure.gates ∧
    gateDegree create_sbox_gate_rs ≤ csDegree RescueCircuit.configure.gates := by decide

/-- Claim C8: on initial state (0, 1, 2), the Poseidon circuit's witness generation
(full_rounds = 8, partial_rounds = 57, alpha = 5, the 195-entry table, the shared
MDS) reaches exactly the documented final triple, and the public outputs bound by
`synthesize` equal the expected instance column asserted in `main`. -/
theorem c8_poseidon_documented_output :
    (poseidonPermute (some 0) (some 1) (some 2)).state =
      ⟨some 18456658763349757341014058622209659766100673761449600566550821987295786346378,
       some 37068251774887509885063625701815026138353041152735229476479055620962268601796,
       some 26763157702141528937904191329664859174584798817251788852101947537759678822298⟩ ∧
    PoseidonCircuit.publicOutputs (some 0) (some 1) (some 2) = mainExpectedPs.map some := by
  have h : (poseidonPermute (some 0) (some 1) (some 2)).state
      = liftSt (poseidonF ⟨0, 1, 2⟩) :=
    (psFoldl_lift (psSchedule poseidonParams.fullRounds poseidonParams.partRounds)
      (psInit (some 0) (some 1) (some 2)) (0, ⟨0, 1, 2⟩) rfl rfl).1
  have h0 : (poseidonF ⟨0, 1, 2⟩).c0
      = 18456658763349757341014058622209659766100673761449600566550821987295786346378 := by
    decide
  have h1 : (poseidonF ⟨0, 1, 2⟩).c1
      = 37068251774887509885063625701815026138353041152735229476479055620962268601796 := by
    decide
  have h2 : (poseidonF ⟨0, 1, 2⟩).c2
      = 26763157702141528937904191329664859174584798817251788852101947537759678822298 := by
    decide
  have hstate : (poseidonPermute (some 0) (some 1) (some 2)).state =
      ⟨some 18456658763349757341014058622209659766100673761449600566550821987295786346378,
       some 37068251774887509885063625701815026138353041152735229476479055620962268601796,
       some 26763157702141528937904191329664859174584798817251788852101947537759678822298⟩ := by
    rw [h]
    simp [liftSt, h0, h1, h2]
  refine ⟨hstate, ?_⟩
  simp only [PoseidonCircuit.publicOutputs, poseidonPermute] at hstate ⊢
  rw [hstate]
  simp [mainExpectedPs]

/-- Claim C6: the Rescue-Prime inverse S-box gate constrains the forward direction,
`current = next ^ 5`, on each lane; and for any `alpha_inv` with
`5 * alpha_inv ≡ 1 (mod P - 1)` this is equivalent, lane by lane, to the witness
computation `next = current ^ alpha_inv`. -/
theorem c6_inverse_sbox_gate_equivalence (ai : Nat) (hai : (5 * ai) % (P - 1) = 1)
    (cur next : St3) :
    (∀ e ∈ create_sbox_inv_gate_rs,
        Expr.eval (advTwoRows cur next) (fun _ _ => 0) (fun _ _ => true) 0 e = 0) ↔
      next = rsInvSboxF ai cur := by
  obtain ⟨x0, x1, x2⟩ := cur
  obtain ⟨y0, y1, y2⟩ := next
  have lane : ∀ x y : Fp, x = y ^ 5 ↔ y = x ^ ai := by
    intro x y
    constructor
    · intro h
      subst h
      exact (fp_pow_five_then_ai ai hai y).symm
    · intro h
      subst h
      exact (fp_pow_ai_then_five ai hai x).symm
  have hchain : ∀ z : Fp, z * z * z * z * z = z ^ 5 := by intro z; ring
  simp only [create_sbox_inv_gate_rs, List.forall_mem_cons, List.forall_mem_nil, and_true]
  simp [Expr.eval, advTwoRows, st3Col, pow5Expr, rsInvSboxF, St3.mk.injEq, hchain,
    add_neg_eq_zero, lane]

/-- Witness for claim C6: the hardcoded `alpha_inv` satisfies the hypothesis, and
the equivalence holds at the concrete pair of states (1,1,1), (1,1,1). -/
theorem c6_inverse_sbox_gate_equivalence_witness :
    ((5 * rescueParams.alphaInv) % (P - 1) = 1) ∧
    ((∀ e ∈ create_sbox_inv_gate_rs,
        Expr.eval (advTwoRows ⟨1, 1, 1⟩ ⟨1, 1, 1⟩) (fun _ _ => 0) (fun _ _ => true) 0 e = 0) ↔
      (⟨1, 1, 1⟩ : St3) = rsInvSboxF rescueParams.alphaInv ⟨1, 1, 1⟩) :=
  ⟨by decide, c6_inverse_sbox_gate_equivalence rescueParams.alphaInv (by decide) ⟨1, 1, 1⟩ ⟨1, 1, 1⟩⟩
/-- Claim C2 (code bug): in the Poseidon partial rounds the source carries lanes 1
and 2 forward by `assign_advice` with copied values only — it never calls
`copy_advice`/`constrain_equal`, so NO equality (copy) constraint ties the S-box
output row's lane-1/2 cells to the ARC row's. Concretely: (i) witness generation
emits no copy constraints at all, for any input; (ii) the honest trace for input
(0, 1, 2) satisfies every polynomial gate; (iii) so does the tampered trace that
shifts the lane-1 pass-through cell on the first partial round's S-box output row
(row 14) by 1 and recomputes the later rows consistently, even though its carried
value no longer equals its ARC-row pair — the mechanism the claim asserts does
not exist, and only the gates downstream of the mutated cell (not any equality
constraint) tie it to the rest of the trace. -/
theorem c2_carry_not_copy_constrained :
    (∀ a0 a1 a2 : Option Fp, (poseidonPermute a0 a1 a2).copies = []) ∧
    gatesSatisfied psHonest.rows psHonest.fixedRows psHonest.enables = true ∧
    gatesSatisfied psTamperedRows psHonest.fixedRows psHonest.enables = true ∧
    psTamperedRows.length = psHonest.rows.length ∧
    ((psHonest.rows.getD 14 ⟨none, none, none⟩).s1).getD 0
      = ((psHonest.rows.getD 13 ⟨none, none, none⟩).s1).getD 0 ∧
    ((psTamperedRows.getD 14 ⟨none, none, none⟩).s1).getD 0
      ≠ ((psTamperedRows.getD 13 ⟨none, none, none⟩).s1).getD 0 := by
  refine ⟨?_, by decide, by decide, by decide, by decide, by decide⟩
  intro a0 a1 a2
  have hsh : psShapeOf (poseidonPermute a0 a1 a2)
      = psShapeOf (poseidonPermute none none none) :=
    psShape_input_indep poseidonParams a0 a1 a2 none none none
  rw [psState_copies_view, hsh]
  decide
